import Mathlib

/-!
Verification of `mt/sql/base.py` (repository inteplus/mtsql).

The Python source is shallowly embedded: each Lean definition below mirrors a
function of `src/mt/sql/base.py`, with Python exceptions modelled as an
explicit error type, the retry loop as fuel recursion, SQLAlchemy context
managers as explicit event lists, and the pandas chunk iterator as a finite
list of batches followed by an optional mid-stream error.  Diagnostic-only
side effects (the `Halo` spinner, and the per-trial log messages inside
`run_func`) do not influence control flow or results and are not part of the
state; the one observable diagnostic that the design cares about — the
`logger.warn_last_exception()` call in the chunked-read failure path — is
modelled as an explicit trace event.
-/

namespace MtSql

/-- Exception classes that `base.py` can observe.  `programmingError`,
`integrityError`, `databaseError`, `operationalError` and `interfaceError`
stand for the corresponding `sqlalchemy.exc` classes, `psOperationalError`
for `psycopg2.OperationalError`; `runtimeError`, `valueError` and
`nameError` are the Python builtins raised by the module itself; raising any
other exception type is `otherError`. -/
inductive PyErr : Type where
  | programmingError (msg : String)
  | integrityError (msg : String)
  | databaseError (msg : String)
  | operationalError (msg : String)
  | psOperationalError (msg : String)
  | interfaceError (msg : String)
  | runtimeError (msg : String)
  | valueError (msg : String)
  | nameError (msg : String)
  | otherError (msg : String)
deriving DecidableEq

/-- First except clause of `run_func`:
`except (se.ProgrammingError, se.IntegrityError): raise`. -/
def catchClause1 : PyErr → Bool
  | .programmingError _ => true
  | .integrityError _ => true
  | _ => false

/-- Second except clause of `run_func`:
`except (se.DatabaseError, se.OperationalError, ps.OperationalError,
se.InterfaceError)`.  In SQLAlchemy, `ProgrammingError`, `IntegrityError`
and `OperationalError` are subclasses of `DatabaseError`, so this clause
would also match programming and integrity errors had the first clause not
been placed before it. -/
def catchClause2 : PyErr → Bool
  | .databaseError _ => true
  | .operationalError _ => true
  | .psOperationalError _ => true
  | .interfaceError _ => true
  | .programmingError _ => true
  | .integrityError _ => true
  | _ => false

/-- A Python callable handed to `run_func`: its qualified name
(`func.__module__`, `func.__name__`) and its behaviour on the k-th
invocation (0-based), which either returns a value or raises. -/
structure PyFunc (α : Type) where
  module : String
  name : String
  impl : Nat → Except PyErr α

/-- The message of the `RuntimeError` raised by `run_func` on exhaustion:
`"Attempted {nb_trials} times to execute `{module}.{name}()` but failed."`. -/
def exhaustedMsg (nb_trials : Int) (m n : String) : String :=
  "Attempted " ++ toString nb_trials ++ " times to execute `" ++ m ++ "." ++ n
    ++ "()` but failed."

/-- The loop body of `run_func` (`for x in range(nb_trials)`), with `x` the
number of invocations already made and the remaining iteration count as
fuel.  Each iteration calls the function; on success it returns; a
programming/integrity error is re-raised; a database/operational/interface
error falls through to the next iteration (after an optional diagnostic log
message, which carries no state); any other exception propagates uncaught.
Returns the outcome together with the total number of invocations made. -/
def run_func_go {α : Type} (f : PyFunc α) (nb_trials : Int) :
    Nat → Nat → Except PyErr α × Nat
  | x, 0 => (.error (.runtimeError (exhaustedMsg nb_trials f.module f.name)), x)
  | x, fuel + 1 =>
    match f.impl x with
    | .ok v => (.ok v, x + 1)
    | .error e =>
      if catchClause1 e then (.error e, x + 1)
      else if catchClause2 e then run_func_go f nb_trials (x + 1) fuel
      else (.error e, x + 1)

/-- `run_func(func, *args, nb_trials=..., logger=..., **kwargs)` of
`base.py`.  `range(nb_trials)` yields `max(nb_trials, 0)` iterations, hence
the fuel `nb_trials.toNat`.  The second component is the number of times
the wrapped callable was actually invoked. -/
def run_func {α : Type} (f : PyFunc α) (nb_trials : Int) : Except PyErr α × Nat :=
  run_func_go f nb_trials 0 nb_trials.toNat

/-- The argument named `engine` throughout `base.py`: either an
`sqlalchemy.engine.Engine` or an already-open `sqlalchemy.engine.Connection`
(the `id` merely distinguishes individual handles). -/
inductive Handle : Type where
  | engine (id : Nat)
  | connection (id : Nat)
deriving DecidableEq

/-- A compiled SQLAlchemy query object (the non-string case of the `sql`
argument).  `compiledLiteral` is the text produced by
`str(sql.compile(compile_kwargs={"literal_binds": True}))`; the object
itself is otherwise opaque and is what execution must receive unchanged. -/
structure SaQuery : Type where
  compiledLiteral : List Char
deriving DecidableEq

/-- The `sql` argument: raw text or a pre-built query object. -/
inductive SqlInput : Type where
  | str (s : List Char)
  | query (q : SaQuery)
deriving DecidableEq

/-- The executable statement handed to the driver: `sa.text(s)` for raw
text, or the original parameterized object. -/
inductive Statement : Type where
  | textOf (s : List Char)
  | obj (q : SaQuery)
deriving DecidableEq

/-- Observable events of one call into this layer: transaction begin /
commit / rollback issued by a scope this layer opened, one driver
invocation per `run_func` trial, one direct `conn.execute` call, one batch
fetched from the pandas chunk iterator, and the
`logger.warn_last_exception()` diagnostic of the chunked-read failure
path. -/
inductive Ev (ρ : Type) : Type where
  | scopeBegin
  | scopeCommit
  | scopeRollback
  | callDriver (stmt : Statement)
  | execCall (stmt : Statement)
  | fetchBatch (b : List ρ)
  | warnException
deriving DecidableEq

/-- A context manager as this layer observes it: the events it issues on
entry, on a clean exit, and on an exit via a propagating exception. -/
structure CtxMgr (ρ : Type) : Type where
  enter : List (Ev ρ)
  exitOk : List (Ev ρ)
  exitErr : List (Ev ρ)
deriving DecidableEq

/-- `conn_ctx(engine)` of `base.py`: for an `Engine`, `engine.begin()` — a
transaction that commits on clean exit and rolls back on exception; for a
`Connection`, `ctx.nullcontext(engine)` — the connection is yielded as-is
and no transaction verb is ever issued. -/
def conn_ctx {ρ : Type} : Handle → CtxMgr ρ
  | .engine _ => ⟨[.scopeBegin], [.scopeCommit], [.scopeRollback]⟩
  | .connection _ => ⟨[], [], []⟩

/-- `sa.text(sql) if isinstance(sql, str) else sql` (line 96 of
`base.py`). -/
def sa_text_or_obj : SqlInput → Statement
  | .str s => .textOf s
  | .query q => .obj q

/-- `engine_execute(engine, sql, *args, **kwargs)` of `base.py`:
`sa.text(sql)` if the input is a string, then one `conn.execute` inside
`conn_ctx`.  `driver` is the external `conn.execute`; the result is the
event trace paired with the outcome. -/
def engine_execute {ρ γ : Type} (h : Handle) (sql : SqlInput)
    (driver : Statement → Except PyErr γ) : List (Ev ρ) × Except PyErr γ :=
  let text_sql : Statement := sa_text_or_obj sql
  match driver text_sql with
  | .ok v => ((conn_ctx h).enter ++ [Ev.execCall text_sql] ++ (conn_ctx h).exitOk, .ok v)
  | .error e =>
    ((conn_ctx h).enter ++ [Ev.execCall text_sql] ++ (conn_ctx h).exitErr, .error e)

/-- Characters treated as line boundaries by Python `str.splitlines`
(with `"\r\n"` additionally consumed as a single boundary, handled in
`pySplitlinesGo`). -/
def pyLineBoundary (c : Char) : Bool :=
  c == '\n' || c == '\r' || c == '\x0b' || c == '\x0c' ||
  c == Char.ofNat 0x1c || c == Char.ofNat 0x1d || c == Char.ofNat 0x1e ||
  c == Char.ofNat 0x85 || c == Char.ofNat 0x2028 || c == Char.ofNat 0x2029

/-- Characters on which Python `str.split()` (no separator) splits: every
`splitlines` boundary plus space, tab, the `0x1f` separator and the Unicode
space characters. -/
def pySplitSpace (c : Char) : Bool :=
  pyLineBoundary c || c == ' ' || c == '\t' || c == Char.ofNat 0x1f ||
  c == Char.ofNat 0xa0 || c == Char.ofNat 0x1680 ||
  (0x2000 ≤ c.toNat && c.toNat ≤ 0x200a) ||
  c == Char.ofNat 0x202f || c == Char.ofNat 0x205f || c == Char.ofNat 0x3000

/-- `str.splitlines`: accumulate the current line (reversed) and cut at
each boundary, treating `"\r\n"` as one boundary; a trailing boundary does
not open a final empty line. -/
def pySplitlinesGo : List Char → List Char → List (List Char)
  | [], acc => if acc.isEmpty then [] else [acc.reverse]
  | '\r' :: '\n' :: rest, acc => acc.reverse :: pySplitlinesGo rest []
  | c :: rest, acc =>
    if pyLineBoundary c then acc.reverse :: pySplitlinesGo rest []
    else pySplitlinesGo rest (c :: acc)

/-- `sql_query.splitlines()`. -/
def pySplitlines (l : List Char) : List (List Char) :=
  pySplitlinesGo l []

/-- `str.split()` with no separator: maximal runs of non-whitespace
characters, empty runs discarded. -/
def pySplitGo : List Char → List Char → List (List Char)
  | [], acc => if acc.isEmpty then [] else [acc.reverse]
  | c :: rest, acc =>
    if pySplitSpace c then
      if acc.isEmpty then pySplitGo rest []
      else acc.reverse :: pySplitGo rest []
    else pySplitGo rest (c :: acc)

/-- `" ".join(pieces)`. -/
def joinSpace : List (List Char) → List Char
  | [] => []
  | [t] => t
  | t :: ts => t ++ ' ' :: joinSpace ts

/-- `trim_sql_query(sql_query)` of `base.py`:
`" ".join(sql_query.splitlines())` followed by
`" ".join(sql_query.split())`. -/
def trim_sql_query (l : List Char) : List Char :=
  joinSpace (pySplitGo (joinSpace (pySplitlines l)) [])

/-- Lines 160–165 of `read_sql`: a raw string is wrapped by `sa.text` and
its own text becomes the display string; a pre-built query object is kept
as the executable statement while its literal-bound compilation becomes the
display string; either way the display string is `trim_sql_query`-ed. -/
def read_sql_prepare : SqlInput → Statement × List Char
  | .str s => (.textOf s, trim_sql_query s)
  | .query q => (.obj q, trim_sql_query q.compiledLiteral)

/-- The iterator returned by `pandas.read_sql` when `chunksize` is given:
the batches it yields in order, then either clean exhaustion (`err = none`)
or an exception raised mid-stream (`err = some e`).  Each batch is a
dataframe, modelled as its list of rows. -/
structure ChunkStream (ρ : Type) : Type where
  batches : List (List ρ)
  err : Option PyErr
deriving DecidableEq

/-- The `if logger: logger.warn_last_exception()` line in the `except`
branch of `read_sql`: one diagnostic event, emitted only when the stream
failed mid-way and a logger was supplied, before the policy is consulted. -/
def midStreamWarnEvents {ρ : Type} (logger : Bool) : Option PyErr → List (Ev ρ)
  | none => []
  | some _ => if logger then [Ev.warnException] else []

/-- The message of the `ValueError` raised for an unrecognized
`exception_handling` value. -/
def unknownPolicyMsg (eh : String) : String :=
  "Unknown value for argument \x27exception_handling\x27: \x27" ++ eh ++ "\x27."

/-- `read_sql(sql, engine, chunksize=n, nb_trials, exception_handling,
logger, ...)` of `base.py`, specialized to `chunksize is not None` (the
chunked branch; `f` is `pd.read_sql` already applied to the statement, the
connection and the chunk size, indexed by trial).  Faithfully to the
source, the `with conn_ctx(engine) as conn:` block encloses only the
`run_func` call that obtains the iterator; the `for df in res:` loop, the
final `pd.concat(dfs)` and the `except` branch run after that block has
exited.  On a mid-stream exception the source checks
`exception_handling == "raise"` (re-raise), then
`exception_handling != "warn"` (raise `ValueError`), and otherwise returns
`pd.concat` of the batches collected so far; `pd.concat` over the external
dataframe library is modelled by its contract, concatenation in arrival
order (`List.flatten`).  Returns the event trace and the outcome. -/
def read_sql_chunked {ρ : Type} (sql : SqlInput) (h : Handle) (nb_trials : Int)
    (exception_handling : String) (logger : Bool) (f : PyFunc (ChunkStream ρ)) :
    List (Ev ρ) × Except PyErr (List ρ) :=
  let stmt := (read_sql_prepare sql).1
  let r := run_func f nb_trials
  let callEvs : List (Ev ρ) := List.replicate r.2 (Ev.callDriver stmt)
  match r.1 with
  | .error e => ((conn_ctx h).enter ++ callEvs ++ (conn_ctx h).exitErr, .error e)
  | .ok cs =>
    let scopeEvs := (conn_ctx h).enter ++ callEvs ++ (conn_ctx h).exitOk
    let tailEvs := cs.batches.map Ev.fetchBatch ++ midStreamWarnEvents logger cs.err
    match cs.err with
    | none => (scopeEvs ++ tailEvs, .ok cs.batches.flatten)
    | some e =>
      if exception_handling = "raise" then (scopeEvs ++ tailEvs, .error e)
      else if exception_handling ≠ "warn" then
        (scopeEvs ++ tailEvs, .error (.valueError (unknownPolicyMsg exception_handling)))
      else (scopeEvs ++ tailEvs, .ok cs.batches.flatten)

/-- `read_sql` specialized to `chunksize is None`: the same scope and
`run_func` call, and whatever `pd.read_sql` returned is handed back
directly (`return res`). -/
def read_sql_nochunk {ρ δ : Type} (sql : SqlInput) (h : Handle) (nb_trials : Int)
    (f : PyFunc δ) : List (Ev ρ) × Except PyErr δ :=
  let stmt := (read_sql_prepare sql).1
  let r := run_func f nb_trials
  let callEvs : List (Ev ρ) := List.replicate r.2 (Ev.callDriver stmt)
  match r.1 with
  | .error e => ((conn_ctx h).enter ++ callEvs ++ (conn_ctx h).exitErr, .error e)
  | .ok v => ((conn_ctx h).enter ++ callEvs ++ (conn_ctx h).exitOk, .ok v)

/-- Whether `re` is bound in the module globals of `base.py`.  The module
imports `uuid`, `sqlalchemy as sa`, `sqlalchemy.exc as se`,
`psycopg2 as ps`, `tp`/`logg`/`pd`/`ctx` from `mt`, and `Halo` from
`mt.halo` — and nothing else: the name `re` used inside
`temp_table_find_new_id` is never imported, so evaluating it raises
`NameError`. -/
def re_imported : Bool := false

/-- Value of a digit string, as Python `int` on the captured group. -/
def digitsVal (ds : List Char) : Nat :=
  ds.foldl (fun a c => a * 10 + (c.toNat - 48)) 0

/-- `re.match(r"mttmp_(\d+)", table_name)`: anchored at the start only, it
succeeds when the name begins with `mttmp_` followed by at least one digit,
capturing the maximal leading digit run. -/
def reMatchMttmp : List Char → Option Nat
  | 'm' :: 't' :: 't' :: 'm' :: 'p' :: '_' :: rest =>
    let ds := rest.takeWhile Char.isDigit
    if ds.isEmpty then none else some (digitsVal ds)
  | _ => none

/-- The loop of `temp_table_find_new_id` over the listed table names with
accumulator `max_id` (initially `-1`).  Each iteration evaluates
`re.match(...)`, which in this module raises
`NameError: name 're' is not defined` because `re` was never imported; the
intended body (kept here behind `re_imported` exactly as the source spells
it) would raise `max_id` to any larger matched id.  An empty list never
enters the body and returns `max_id + 1`. -/
def temp_table_find_new_id_go : List (List Char) → Int → Except PyErr Int
  | [], max_id => .ok (max_id + 1)
  | t :: rest, max_id =>
    if re_imported then
      match reMatchMttmp t with
      | some id =>
        temp_table_find_new_id_go rest (if max_id < (id : Int) then (id : Int) else max_id)
      | none => temp_table_find_new_id_go rest max_id
    else .error (.nameError "name \x27re\x27 is not defined")

/-- `temp_table_find_new_id(engine)` of `base.py`, applied to the table
names returned by `list_tables(engine)` (the external inspector). -/
def temp_table_find_new_id (tables : List (List Char)) : Except PyErr Int :=
  temp_table_find_new_id_go tables (-1)

/-- `temp_table_name(id)` of `base.py`. -/
def temp_table_name (id : Int) : List Char :=
  "mttmp_".toList ++ (toString id).toList

/-- No two consecutive characters of the list are both spaces. -/
def noDoubleSpace : List Char → Bool
  | a :: b :: rest => !(a == ' ' && b == ' ') && noDoubleSpace (b :: rest)
  | _ => true

/-- Transaction verbs issued by a scope this layer opened. -/
def isScopeEv {ρ : Type} : Ev ρ → Bool
  | .scopeBegin => true
  | .scopeCommit => true
  | .scopeRollback => true
  | _ => false

/-- Scope-release events: commit or rollback. -/
def isScopeRelease {ρ : Type} : Ev ρ → Bool
  | .scopeCommit => true
  | .scopeRollback => true
  | _ => false

/-- Batch-fetch events. -/
def isFetch {ρ : Type} : Ev ρ → Bool
  | .fetchBatch _ => true
  | _ => false

/-- Whether some batch-fetch event occurs strictly after some
scope-release event in the trace. -/
def fetchAfterRelease {ρ : Type} : List (Ev ρ) → Bool
  | [] => false
  | ev :: rest => (isScopeRelease ev && rest.any isFetch) || fetchAfterRelease rest

/-! Helper lemmas. -/

/-- Programming and integrity errors are `DatabaseError` subclasses, so the
second except clause of `run_func` would also catch them. -/
theorem catchClause2_of_catchClause1 (e : PyErr) (h : catchClause1 e = true) :
    catchClause2 e = true := by
  cases e <;> simp_all [catchClause1, catchClause2]

/-- If every invocation of `f` raises an error caught by the retry clause
(and not by the re-raise clause), the loop consumes all its fuel and ends
in the exhaustion `RuntimeError`. -/
theorem run_func_go_transient {α : Type} (f : PyFunc α) (N : Int)
    (htr : ∀ k, ∃ e, f.impl k = .error e ∧ catchClause1 e = false ∧ catchClause2 e = true) :
    ∀ fuel x, run_func_go f N x fuel =
      (.error (.runtimeError (exhaustedMsg N f.module f.name)), x + fuel) := by
  intro fuel
  induction fuel with
  | zero => intro x; simp [run_func_go]
  | succ n ih =>
    intro x
    obtain ⟨e, he, h1, h2⟩ := htr x
    simp only [run_func_go, he, h1, h2, Bool.false_eq_true, if_false, if_true, ih (x + 1)]
    have hx : x + 1 + n = x + (n + 1) := by omega
    rw [hx]

/-! Claim theorems. -/

/-- C1: for every `max_trials = N ≥ 1` and an operation raising a
transient-classified (operational / database / interface level) error on
every call, `run_func` invokes the operation exactly `N` times and then
raises the exhaustion `RuntimeError` naming the operation and `N` — also
for `N = 1`, where the surfaced error is that `RuntimeError`, not the raw
transient error. -/
theorem run_func_transient_exhausts {α : Type} (f : PyFunc α) (N : Int) (hN : 1 ≤ N)
    (htr : ∀ k, ∃ e, f.impl k = .error e ∧ catchClause1 e = false ∧ catchClause2 e = true) :
    run_func f N = (.error (.runtimeError (exhaustedMsg N f.module f.name)), N.toNat) ∧
    (N.toNat : Int) = N := by
  refine ⟨?_, Int.toNat_of_nonneg (by omega)⟩
  have h := run_func_go_transient f N htr N.toNat 0
  simpa [run_func] using h

/-- Witness for C1 at a concrete operation failing with
`OperationalError` on every call and `nb_trials = 2`. -/
theorem run_func_transient_exhausts_witness :
    run_func (α := Nat) ⟨"m", "f", fun _ => .error (.operationalError "x")⟩ 2 =
      (.error (.runtimeError (exhaustedMsg 2 "m" "f")), Int.toNat 2) ∧
    ((Int.toNat 2 : Nat) : Int) = 2 :=
  run_func_transient_exhausts ⟨"m", "f", fun _ => .error (.operationalError "x")⟩ 2
    (by decide) (fun _ => ⟨.operationalError "x", rfl, rfl, rfl⟩)

/-- C2: an operation raising a fatal-classified (programming / integrity)
error on its first call is invoked exactly once and that exact error
propagates, for every `max_trials ≥ 1` — although such errors are also
`DatabaseError` subclasses that the retried clause would otherwise
catch. -/
theorem run_func_fatal_propagates {α : Type} (f : PyFunc α) (N : Int) (hN : 1 ≤ N)
    (e : PyErr) (h0 : f.impl 0 = .error e) (hfat : catchClause1 e = true) :
    run_func f N = (.error e, 1) ∧ catchClause2 e = true := by
  refine ⟨?_, catchClause2_of_catchClause1 e hfat⟩
  obtain ⟨m, hm⟩ : ∃ m, N.toNat = m + 1 := ⟨N.toNat - 1, by omega⟩
  simp [run_func, hm, run_func_go, h0, hfat]

/-- Witness for C2 at a concrete operation raising `ProgrammingError` and
`nb_trials = 5`. -/
theorem run_func_fatal_propagates_witness :
    run_func (α := Nat) ⟨"m", "f", fun _ => .error (.programmingError "bad")⟩ 5 =
      (.error (.programmingError "bad"), 1) ∧
    catchClause2 (.programmingError "bad") = true :=
  run_func_fatal_propagates ⟨"m", "f", fun _ => .error (.programmingError "bad")⟩ 5
    (by decide) (.programmingError "bad") rfl rfl

/-- C10: for `nb_trials ≤ 0`, `range(nb_trials)` is empty, so `run_func`
never invokes the operation and immediately raises the exhaustion
`RuntimeError`, whose message names the operation and the given
(nonpositive) trial count. -/
theorem run_func_nonpositive_trials {α : Type} (f : PyFunc α) (N : Int) (hN : N ≤ 0) :
    run_func f N = (.error (.runtimeError (exhaustedMsg N f.module f.name)), 0) := by
  have h : N.toNat = 0 := Int.toNat_eq_zero.mpr hN
  rw [run_func, h]
  rfl

/-- Witness for C10 at `nb_trials = -2` and an operation that would
succeed if it were ever invoked. -/
theorem run_func_nonpositive_trials_witness :
    run_func (α := Nat) ⟨"m", "f", fun _ => .ok 0⟩ (-2) =
      (.error (.runtimeError (exhaustedMsg (-2) "m" "f")), 0) :=
  run_func_nonpositive_trials ⟨"m", "f", fun _ => .ok 0⟩ (-2) (by decide)

/-- C4: for a chunk stream that yields batches `b1`, `b2` and then raises
mid-stream, the `"raise"` policy re-raises the original error (no partial
table is returned), while the `"warn"` policy emits the diagnostic warning
and returns the concatenation of `b1` and `b2` without raising. -/
theorem read_sql_midstream_policy {ρ : Type} (sql : SqlInput) (h : Handle) (nb : Int)
    (f : PyFunc (ChunkStream ρ)) (b1 b2 : List ρ) (e : PyErr)
    (hok : (run_func f nb).1 = .ok ⟨[b1, b2], some e⟩) :
    (read_sql_chunked sql h nb "raise" true f).2 = .error e ∧
    (read_sql_chunked sql h nb "warn" true f).2 = .ok (b1 ++ b2) ∧
    Ev.warnException ∈ (read_sql_chunked sql h nb "warn" true f).1 := by
  refine ⟨?_, ?_, ?_⟩ <;> simp [read_sql_chunked, hok, midStreamWarnEvents]

/-- Witness for C4 at batches `[1]`, `[2]` and a mid-stream
`OperationalError`. -/
theorem read_sql_midstream_policy_witness :
    (read_sql_chunked (ρ := Nat) (.str "q".toList) (.engine 0) 3 "raise" true
        ⟨"p", "r", fun _ => .ok ⟨[[1], [2]], some (.operationalError "boom")⟩⟩).2 =
      .error (.operationalError "boom") ∧
    (read_sql_chunked (ρ := Nat) (.str "q".toList) (.engine 0) 3 "warn" true
        ⟨"p", "r", fun _ => .ok ⟨[[1], [2]], some (.operationalError "boom")⟩⟩).2 =
      .ok ([1] ++ [2]) ∧
    Ev.warnException ∈ (read_sql_chunked (ρ := Nat) (.str "q".toList) (.engine 0) 3 "warn" true
        ⟨"p", "r", fun _ => .ok ⟨[[1], [2]], some (.operationalError "boom")⟩⟩).1 :=
  read_sql_midstream_policy (.str "q".toList) (.engine 0) 3
    ⟨"p", "r", fun _ => .ok ⟨[[1], [2]], some (.operationalError "boom")⟩⟩ [1] [2]
    (.operationalError "boom") rfl

/-- C5: with the `"warn"` policy, a stream that raises before any batch
was received yields the empty table as a normal (non-error) return. -/
theorem read_sql_warn_empty_table {ρ : Type} (sql : SqlInput) (h : Handle) (nb : Int)
    (lg : Bool) (f : PyFunc (ChunkStream ρ)) (e : PyErr)
    (hok : (run_func f nb).1 = .ok ⟨[], some e⟩) :
    (read_sql_chunked sql h nb "warn" lg f).2 = .ok [] := by
  simp [read_sql_chunked, hok]

/-- Witness for C5 at a stream failing before its first batch. -/
theorem read_sql_warn_empty_table_witness :
    (read_sql_chunked (ρ := Nat) (.str "q".toList) (.engine 0) 3 "warn" false
        ⟨"p", "r", fun _ => .ok ⟨[], some (.operationalError "boom")⟩⟩).2 = .ok [] :=
  read_sql_warn_empty_table (.str "q".toList) (.engine 0) 3 false
    ⟨"p", "r", fun _ => .ok ⟨[], some (.operationalError "boom")⟩⟩
    (.operationalError "boom") rfl

/-- C9: an `exception_handling` value other than `"raise"` and `"warn"`
surfaces as the `ValueError` naming that value exactly when an error
interrupts the chunk stream; on an error-free chunked read the value is
never consulted and the read returns the concatenated batches. -/
theorem read_sql_invalid_policy {ρ : Type} (p : String) (hp1 : p ≠ "raise")
    (hp2 : p ≠ "warn") (sql sqlb : SqlInput) (h hb : Handle) (nb nbb : Int)
    (lg lgb : Bool) (f g : PyFunc (ChunkStream ρ)) (bs bsb : List (List ρ)) (e : PyErr)
    (hf : (run_func f nb).1 = .ok ⟨bs, some e⟩)
    (hg : (run_func g nbb).1 = .ok ⟨bsb, none⟩) :
    (read_sql_chunked sql h nb p lg f).2 = .error (.valueError (unknownPolicyMsg p)) ∧
    (read_sql_chunked sqlb hb nbb p lgb g).2 = .ok bsb.flatten := by
  refine ⟨?_, ?_⟩ <;> simp [read_sql_chunked, hf, hg, hp1, hp2]

/-- Witness for C9 at the unrecognized policy value `"other"`. -/
theorem read_sql_invalid_policy_witness :
    (read_sql_chunked (ρ := Nat) (.str "q".toList) (.engine 0) 3 "other" true
        ⟨"p", "r", fun _ => .ok ⟨[[1]], some (.operationalError "boom")⟩⟩).2 =
      .error (.valueError (unknownPolicyMsg "other")) ∧
    (read_sql_chunked (ρ := Nat) (.str "q".toList) (.engine 0) 3 "other" false
        ⟨"p", "r", fun _ => .ok ⟨[[3], [4]], none⟩⟩).2 =
      .ok ([[3], [4]] : List (List Nat)).flatten :=
  read_sql_invalid_policy "other" (by decide) (by decide) (.str "q".toList)
    (.str "q".toList) (.engine 0) (.engine 0) 3 3 true false
    ⟨"p", "r", fun _ => .ok ⟨[[1]], some (.operationalError "boom")⟩⟩
    ⟨"p", "r", fun _ => .ok ⟨[[3], [4]], none⟩⟩ [[1]] [[3], [4]]
    (.operationalError "boom") rfl rfl

/-- C3 counterexample: with an `Engine` handle, a chunk stream of one
batch and a successful first trial, the trace of the chunked read contains
a batch fetch strictly after a scope release — the `with conn_ctx(engine)`
block of `read_sql` closes as soon as `run_func` has returned the iterator,
before any batch is consumed, so the claimed property
`fetchAfterRelease = false` fails at this input. -/
theorem read_sql_scope_cex :
    ¬ (fetchAfterRelease (read_sql_chunked (ρ := Nat) (.str "SELECT 1".toList) (.engine 0) 3
        "raise" false ⟨"pandas.io.sql", "read_sql_query", fun _ => .ok ⟨[[1]], none⟩⟩).1
      = false) := by decide

/-- C3 amended: on the engine path, once the driver call succeeds the scope
is begun first, committed (released) immediately after the `run_func`
trials that produced the iterator, and every batch fetch (and the optional
mid-stream diagnostic) occurs strictly after that release — the scope does
not stay open for the lifetime of the chunk stream. -/
theorem read_sql_scope_released_before_fetch {ρ : Type} (sql : SqlInput) (i : Nat)
    (nb : Int) (eh : String) (lg : Bool) (f : PyFunc (ChunkStream ρ)) (cs : ChunkStream ρ)
    (hok : (run_func f nb).1 = .ok cs) :
    (read_sql_chunked sql (.engine i) nb eh lg f).1 =
      Ev.scopeBegin ::
        (List.replicate (run_func f nb).2 (Ev.callDriver (read_sql_prepare sql).1) ++
          Ev.scopeCommit ::
            (cs.batches.map Ev.fetchBatch ++ midStreamWarnEvents lg cs.err)) := by
  obtain ⟨batches, err⟩ := cs
  cases err with
  | none => simp [read_sql_chunked, hok, conn_ctx]
  | some e =>
    by_cases h1 : eh = "raise"
    · simp [read_sql_chunked, hok, conn_ctx, h1]
    · by_cases h2 : eh = "warn" <;> simp [read_sql_chunked, hok, conn_ctx, h1, h2]

/-- Witness for the amended C3 at a one-batch stream obtained on the first
trial. -/
theorem read_sql_scope_released_before_fetch_witness :
    (read_sql_chunked (ρ := Nat) (.str "q".toList) (.engine 0) 3 "raise" false
        ⟨"p", "r", fun _ => .ok ⟨[[1]], none⟩⟩).1 =
      Ev.scopeBegin ::
        (List.replicate
            (run_func (α := ChunkStream Nat) ⟨"p", "r", fun _ => .ok ⟨[[1]], none⟩⟩ 3).2
            (Ev.callDriver (read_sql_prepare (.str "q".toList)).1) ++
          Ev.scopeCommit ::
            (([[1]] : List (List Nat)).map Ev.fetchBatch ++ midStreamWarnEvents false none)) :=
  read_sql_scope_released_before_fetch (.str "q".toList) 0 3 "raise" false
    ⟨"p", "r", fun _ => .ok ⟨[[1]], none⟩⟩ ⟨[[1]], none⟩ rfl

/-- C7: with a handle that is already a `Connection`, `conn_ctx` is the
transparent null context, and neither `engine_execute` nor either branch of
`read_sql` ever places a begin, commit or rollback in its trace — on the
success path and on every failure path alike (the driver outcome and the
stream outcome are arbitrary here). -/
theorem conn_ctx_transparent (ρ γ : Type) (i : Nat) (sql sqlr sqln : SqlInput)
    (drv : Statement → Except PyErr γ) (nb nbn : Int) (eh : String) (lg : Bool)
    (f : PyFunc (ChunkStream ρ)) (g : PyFunc γ) :
    conn_ctx (ρ := ρ) (.connection i) = ⟨[], [], []⟩ ∧
    ((engine_execute (ρ := ρ) (.connection i) sql drv).1.all fun ev => !isScopeEv ev) = true ∧
    ((read_sql_chunked sqlr (.connection i) nb eh lg f).1.all fun ev => !isScopeEv ev) = true ∧
    ((read_sql_nochunk (ρ := ρ) sqln (.connection i) nbn g).1.all fun ev => !isScopeEv ev) = true := by
  have hnoscope : ∀ (l : List (Ev ρ)), (∀ ev ∈ l, isScopeEv ev = false) →
      (l.all fun ev => !isScopeEv ev) = true := by
    intro l hl
    simp only [List.all_eq_true, Bool.not_eq_eq_eq_not, Bool.not_true]
    exact hl
  refine ⟨rfl, ?_, ?_, ?_⟩
  · cases hd : drv (sa_text_or_obj sql) <;>
      · refine hnoscope _ ?_
        simp only [engine_execute, hd, conn_ctx]
        intro ev hev
        simp only [List.nil_append, List.append_nil, List.mem_singleton] at hev
        subst hev
        rfl
  · refine hnoscope _ ?_
    intro ev hev
    simp only [read_sql_chunked, conn_ctx] at hev
    rcases hr : (run_func f nb).1 with e | cs
    · rw [hr] at hev
      simp only [List.nil_append, List.append_nil] at hev
      rcases List.eq_of_mem_replicate hev with rfl
      rfl
    · rw [hr] at hev
      obtain ⟨batches, err⟩ := cs
      have hev2 : ev ∈ List.replicate (run_func f nb).2
            (Ev.callDriver (read_sql_prepare sqlr).1) ++
          (batches.map Ev.fetchBatch ++ midStreamWarnEvents lg err) := by
        cases err with
        | none => simpa using hev
        | some e =>
          by_cases h1 : eh = "raise"
          · simpa [h1] using hev
          · by_cases h2 : eh = "warn" <;> simpa [h1, h2] using hev
      rcases List.mem_append.mp hev2 with hev3 | hev3
      · rcases List.eq_of_mem_replicate hev3 with rfl
        rfl
      · rcases List.mem_append.mp hev3 with hev4 | hev4
        · obtain ⟨b, _, rfl⟩ := List.mem_map.mp hev4
          rfl
        · cases err with
          | none => simp [midStreamWarnEvents] at hev4
          | some e =>
            rcases lg with _ | _
            · simp [midStreamWarnEvents] at hev4
            · simp only [midStreamWarnEvents, if_true, List.mem_singleton] at hev4
              subst hev4
              rfl
  · refine hnoscope _ ?_
    intro ev hev
    simp only [read_sql_nochunk, conn_ctx] at hev
    rcases hr : (run_func g nbn).1 with e | v <;>
      · rw [hr] at hev
        simp only [List.nil_append, List.append_nil] at hev
        rcases List.eq_of_mem_replicate hev with rfl
        rfl

/-- Every token emitted by `pySplitGo` is nonempty and free of whitespace
characters, provided the accumulator is. -/
theorem pySplitGo_tokens (l : List Char) :
    ∀ acc, (∀ c ∈ acc, pySplitSpace c = false) →
      ∀ t ∈ pySplitGo l acc, t ≠ [] ∧ ∀ c ∈ t, pySplitSpace c = false := by
  induction l with
  | nil =>
    intro acc hacc t ht
    rw [pySplitGo] at ht
    by_cases he : acc.isEmpty
    · simp [he] at ht
    · rw [if_neg he, List.mem_singleton] at ht
      subst ht
      refine ⟨?_, fun c hc => hacc c (List.mem_reverse.mp hc)⟩
      simp only [ne_eq, List.reverse_eq_nil_iff]
      intro h
      rw [h] at he
      simp at he
  | cons a rest ih =>
    intro acc hacc t ht
    rw [pySplitGo] at ht
    by_cases hs : pySplitSpace a = true
    · rw [if_pos hs] at ht
      by_cases he : acc.isEmpty
      · rw [if_pos he] at ht
        exact ih [] (by simp) t ht
      · rw [if_neg he, List.mem_cons] at ht
        rcases ht with rfl | ht2
        · refine ⟨?_, fun c hc => hacc c (List.mem_reverse.mp hc)⟩
          simp only [ne_eq, List.reverse_eq_nil_iff]
          intro h
          rw [h] at he
          simp at he
        · exact ih [] (by simp) t ht2
    · rw [if_neg hs] at ht
      refine ih (a :: acc) ?_ t ht
      intro c hc
      rcases List.mem_cons.mp hc with rfl | hc2
      · exact Bool.eq_false_iff.mpr hs
      · exact hacc c hc2

/-- Prepending a whitespace-free prefix does not create a double space. -/
theorem noDoubleSpace_append (t : List Char)
    (ht : ∀ c ∈ t, pySplitSpace c = false) (r : List Char) :
    noDoubleSpace (t ++ r) = noDoubleSpace r := by
  induction t with
  | nil => rfl
  | cons a t' ih =>
    have ha : (a == ' ') = false := by
      refine beq_eq_false_iff_ne.mpr ?_
      intro h
      subst h
      have := ht ' ' (List.mem_cons_self ' ' t')
      exact absurd this (by decide)
    rw [List.cons_append]
    cases h2 : t' ++ r with
    | nil =>
      rcases List.append_eq_nil.mp h2 with ⟨rfl, rfl⟩
      rfl
    | cons b rest2 =>
      rw [noDoubleSpace, ha]
      simp only [Bool.false_and, Bool.not_false, Bool.true_and]
      rw [← h2]
      exact ih fun c hc => ht c (List.mem_cons_of_mem a hc)

/-- `joinSpace` of a list whose first token is nonempty starts with that
token's first character. -/
theorem joinSpace_cons_head (c : Char) (u : List Char) (ts : List (List Char)) :
    ∃ cs, joinSpace ((c :: u) :: ts) = c :: cs := by
  cases ts with
  | nil => exact ⟨u, rfl⟩
  | cons v ts' => exact ⟨u ++ ' ' :: joinSpace (v :: ts'), rfl⟩

/-- Joining nonempty whitespace-free tokens with single spaces never
produces two consecutive spaces. -/
theorem noDoubleSpace_joinSpace (tokens : List (List Char))
    (htok : ∀ t ∈ tokens, t ≠ [] ∧ ∀ c ∈ t, pySplitSpace c = false) :
    noDoubleSpace (joinSpace tokens) = true := by
  induction tokens with
  | nil => rfl
  | cons t ts ih =>
    obtain ⟨hne, hall⟩ := htok t (List.mem_cons_self t ts)
    cases ts with
    | nil =>
      have h := noDoubleSpace_append t hall []
      simpa using h
    | cons u ts' =>
      obtain ⟨hneu, hallu⟩ := htok u (by simp)
      obtain ⟨c, u', rfl⟩ : ∃ c u', u = c :: u' := by
        cases u with
        | nil => exact absurd rfl hneu
        | cons c u' => exact ⟨c, u', rfl⟩
      obtain ⟨cs, hcs⟩ := joinSpace_cons_head c u' ts'
      have hstep : joinSpace (t :: (c :: u') :: ts') =
          t ++ ' ' :: joinSpace ((c :: u') :: ts') := rfl
      have hc : (c == ' ') = false := by
        refine beq_eq_false_iff_ne.mpr ?_
        intro h
        subst h
        have := hallu ' ' (by simp)
        exact absurd this (by decide)
      rw [hstep, noDoubleSpace_append t hall, hcs, noDoubleSpace, hc]
      simp only [Bool.and_false, Bool.not_false, Bool.true_and]
      rw [← hcs]
      exact ih fun t' ht' => htok t' (List.mem_cons_of_mem t ht')

/-- Every character of `joinSpace` over whitespace-free tokens is either
the joining space or a non-whitespace character. -/
theorem mem_joinSpace (tokens : List (List Char))
    (htok : ∀ t ∈ tokens, ∀ c ∈ t, pySplitSpace c = false) :
    ∀ c ∈ joinSpace tokens, c = ' ' ∨ pySplitSpace c = false := by
  induction tokens with
  | nil =>
    intro c hc
    simp [joinSpace] at hc
  | cons t ts ih =>
    intro c hc
    cases ts with
    | nil => exact Or.inr (htok t (by simp) c hc)
    | cons u ts' =>
      have hstep : joinSpace (t :: u :: ts') = t ++ ' ' :: joinSpace (u :: ts') := rfl
      rw [hstep] at hc
      rcases List.mem_append.mp hc with hc1 | hc2
      · exact Or.inr (htok t (by simp) c hc1)
      · rcases List.mem_cons.mp hc2 with rfl | hc3
        · exact Or.inl rfl
        · exact ih (fun t' ht' => htok t' (List.mem_cons_of_mem t ht')) c hc3

/-- C8: for every SQL input, the display string computed by `read_sql` has
no line-break character and no run of two spaces; a raw string is executed
as `sa.text` of the unmodified text, and a pre-built query object is
executed as the original object itself, its literal-bound rendering serving
only as the display string. -/
theorem statement_normalization (inp : SqlInput) (s : List Char) (q : SaQuery) :
    noDoubleSpace (read_sql_prepare inp).2 = true ∧
    ((read_sql_prepare inp).2.all fun c => !pyLineBoundary c) = true ∧
    read_sql_prepare (.str s) = (.textOf s, trim_sql_query s) ∧
    read_sql_prepare (.query q) = (.obj q, trim_sql_query q.compiledLiteral) := by
  obtain ⟨l, hl⟩ : ∃ l, (read_sql_prepare inp).2 = trim_sql_query l := by
    cases inp with
    | str sl => exact ⟨sl, rfl⟩
    | query ql => exact ⟨ql.compiledLiteral, rfl⟩
  have htok := pySplitGo_tokens (joinSpace (pySplitlines l)) [] (by simp)
  refine ⟨?_, ?_, rfl, rfl⟩
  · rw [hl, trim_sql_query]
    exact noDoubleSpace_joinSpace _ htok
  · rw [hl, trim_sql_query]
    simp only [List.all_eq_true]
    intro c hc
    rcases mem_joinSpace _ (fun t ht => (htok t ht).2) c hc with rfl | hns
    · decide
    · have hlb : pyLineBoundary c = false := by
        by_contra hbad
        rw [Bool.not_eq_false] at hbad
        have hsp : pySplitSpace c = true := by simp [pySplitSpace, hbad]
        rw [hsp] at hns
        simp at hns
      simp [hlb]

/-- C6: `temp_table_find_new_id` evaluated at the spec's own example
listing (`mttmp_3`, `mttmp_7` and an unrelated name) raises
`NameError: name 're' is not defined`, because `base.py` never imports
`re`; only the empty listing, which never enters the loop body, returns
the claimed `0`. -/
theorem temp_table_find_new_id_name_error :
    temp_table_find_new_id ["mttmp_3".toList, "mttmp_7".toList, "users".toList] =
      .error (.nameError "name \x27re\x27 is not defined") ∧
    temp_table_find_new_id [] = .ok 0 :=
  ⟨rfl, rfl⟩

end MtSql
